import Mathlib

/-!
Shallow embedding of the heterogeneous-multicore kernel core
(`src/kernel/sched/hmp_scheduler.rs`, `src/kernel/sched/npu_support.rs`,
`src/kernel/multicore.rs`, `src/hal/gic500.rs`) together with proofs of the
spec's claims about it.

Machine integers (`u32`, `u8`, `usize`) are modelled as `Nat`; the only
arithmetic the verified paths perform is increment, saturating decrement
(`Nat` subtraction saturates the same way), `* 25`, `min _ 100`, sums of four
loads and division by 4 — none of which can overflow at the magnitudes the
code maintains.  Rust `Vec` becomes `List` (push = append at the tail,
`remove(position(p))` = `List.eraseP`), fixed-size arrays `[T; 4]` become the
`Quad` structure below, and fallible operations return `Except String _`
exactly where the source returns `Result<_, &'static str>`.
-/

namespace HmpSched

/-- Embeds `TaskHint` from `hmp_scheduler.rs`. -/
inductive TaskHint where
  | HighPerf
  | LowPower
  | NpuPrePost
deriving DecidableEq, Repr

/-- Embeds `TaskState` from `hmp_scheduler.rs`. -/
inductive TaskState where
  | Pending
  | Running
  | Waiting
  | Done
deriving DecidableEq, Repr

/-- Embeds `Task` from `hmp_scheduler.rs`: id, priority, affinity hint, optional
assigned CPU (0-7), lifecycle state. -/
structure Task where
  id : Nat
  priority : Nat
  hint : TaskHint
  assigned_cpu : Option Nat
  state : TaskState
deriving DecidableEq, Repr

/-- Embeds `CoreLoad` from `hmp_scheduler.rs`: per-core id, load percentage and
running task count. -/
structure CoreLoad where
  cpu_id : Nat
  load_percent : Nat
  task_count : Nat
deriving DecidableEq, Repr

/-- Embeds `CoreLoad::new`: zero load, zero tasks. -/
def CoreLoad.new (cpu_id : Nat) : CoreLoad :=
  { cpu_id := cpu_id, load_percent := 0, task_count := 0 }

/-- A fixed array of four elements, embedding the Rust `[CoreLoad; 4]`
cluster-load arrays. -/
structure Quad (α : Type) where
  q0 : α
  q1 : α
  q2 : α
  q3 : α
deriving DecidableEq, Repr

/-- Read slot `i` of a `Quad` (all in-source indices are < 4; out-of-range
reads default to the last slot and never occur on the verified paths). -/
def Quad.get {α : Type} (q : Quad α) (i : Nat) : α :=
  match i with
  | 0 => q.q0
  | 1 => q.q1
  | 2 => q.q2
  | _ => q.q3

/-- Apply `f` to slot `i` of a `Quad` (in-source indices are always < 4). -/
def Quad.update {α : Type} (q : Quad α) (i : Nat) (f : α → α) : Quad α :=
  match i with
  | 0 => { q with q0 := f q.q0 }
  | 1 => { q with q1 := f q.q1 }
  | 2 => { q with q2 := f q.q2 }
  | 3 => { q with q3 := f q.q3 }
  | _ => q

/-- Embeds `SchedulerConfig` from `hmp_scheduler.rs`. -/
structure SchedulerConfig where
  a55_load_threshold : Nat
  a76_load_threshold : Nat
  enable_load_balance : Bool
  rebalance_interval_ms : Nat
deriving DecidableEq, Repr

/-- Embeds `SchedulerConfig::default`: thresholds 60 / 50, balancing on, 100 ms. -/
def SchedulerConfig.default : SchedulerConfig :=
  { a55_load_threshold := 60
    a76_load_threshold := 50
    enable_load_balance := true
    rebalance_interval_ms := 100 }

/-- Embeds `HmpScheduler` from `hmp_scheduler.rs`: A76 loads (CPUs 0-3), A55 loads
(CPUs 4-7), the active task queue and the configuration. -/
structure HmpScheduler where
  a76_loads : Quad CoreLoad
  a55_loads : Quad CoreLoad
  task_queue : List Task
  config : SchedulerConfig
deriving DecidableEq, Repr

/-- Embeds `HmpScheduler::new`. -/
def HmpScheduler.new : HmpScheduler :=
  { a76_loads := ⟨CoreLoad.new 0, CoreLoad.new 1, CoreLoad.new 2, CoreLoad.new 3⟩
    a55_loads := ⟨CoreLoad.new 4, CoreLoad.new 5, CoreLoad.new 6, CoreLoad.new 7⟩
    task_queue := []
    config := SchedulerConfig.default }

/-- Embeds `HmpScheduler::get_a76_avg_load`: sum of the four A76 load percentages
divided by 4. -/
def HmpScheduler.get_a76_avg_load (s : HmpScheduler) : Nat :=
  (s.a76_loads.q0.load_percent + s.a76_loads.q1.load_percent +
    s.a76_loads.q2.load_percent + s.a76_loads.q3.load_percent) / 4

/-- Embeds `HmpScheduler::get_a55_avg_load`. -/
def HmpScheduler.get_a55_avg_load (s : HmpScheduler) : Nat :=
  (s.a55_loads.q0.load_percent + s.a55_loads.q1.load_percent +
    s.a55_loads.q2.load_percent + s.a55_loads.q3.load_percent) / 4

/-- One iteration of the `for i in 1..4` minimum scan in
`find_least_loaded_a76` / `find_least_loaded_a55`: keep `(i, load)` exactly
when the new load is strictly smaller than the running minimum. -/
def minStep (acc : Nat × Nat) (i : Nat) (load : Nat) : Nat × Nat :=
  if load < acc.2 then (i, load) else acc

/-- The unrolled `min_idx`/`min_load` scan of the source loops, shared by the
two (textually identical) per-cluster search functions. -/
def findLeastQuad (q : Quad CoreLoad) : Nat :=
  (minStep (minStep (minStep (0, q.q0.load_percent)
      1 q.q1.load_percent) 2 q.q2.load_percent) 3 q.q3.load_percent).1

/-- Embeds `HmpScheduler::find_least_loaded_a76`. -/
def HmpScheduler.find_least_loaded_a76 (s : HmpScheduler) : Nat :=
  findLeastQuad s.a76_loads

/-- Embeds `HmpScheduler::find_least_loaded_a55`. -/
def HmpScheduler.find_least_loaded_a55 (s : HmpScheduler) : Nat :=
  findLeastQuad s.a55_loads

/-- Embeds `HmpScheduler::decide_cpu`: HighPerf/NpuPrePost go to the least-loaded
A76 core; LowPower goes to the least-loaded A55 core (returned as `4 + idx`)
when the A55 average load is below the configured threshold and otherwise
falls back to the least-loaded A76 core. -/
def HmpScheduler.decide_cpu (s : HmpScheduler) (task : Task) : Nat :=
  match task.hint with
  | TaskHint.HighPerf => s.find_least_loaded_a76
  | TaskHint.NpuPrePost => s.find_least_loaded_a76
  | TaskHint.LowPower =>
    let avg_a55_load := s.get_a55_avg_load
    if avg_a55_load < s.config.a55_load_threshold then
      4 + s.find_least_loaded_a55
    else
      s.find_least_loaded_a76

/-- The load update `submit_task` performs on the chosen core:
`task_count += 1; load_percent = (task_count * 25).min(100)`. -/
def bumpUp (c : CoreLoad) : CoreLoad :=
  let tc := c.task_count + 1
  { c with task_count := tc, load_percent := min (tc * 25) 100 }

/-- The load update `finish_task` performs on the assigned core:
`task_count = task_count.saturating_sub(1); load_percent = (task_count * 25).min(100)`
(`Nat` subtraction saturates exactly like `saturating_sub`). -/
def bumpDown (c : CoreLoad) : CoreLoad :=
  let tc := c.task_count - 1
  { c with task_count := tc, load_percent := min (tc * 25) 100 }

/-- Embeds `HmpScheduler::submit_task`: decide the CPU, stamp the task Running on
it, bump that core's count/load, push the task; the source always returns
`Ok(assigned_cpu)`, so the embedding returns the cpu id directly. -/
def HmpScheduler.submit_task (s : HmpScheduler) (task : Task) :
    Nat × HmpScheduler :=
  let assigned_cpu := s.decide_cpu task
  let task' := { task with assigned_cpu := some assigned_cpu,
                           state := TaskState.Running }
  let s' :=
    if assigned_cpu < 4 then
      { s with a76_loads := s.a76_loads.update assigned_cpu bumpUp }
    else
      { s with a55_loads := s.a55_loads.update (assigned_cpu - 4) bumpUp }
  (assigned_cpu, { s' with task_queue := s'.task_queue ++ [task'] })

/-- Embeds `HmpScheduler::finish_task`: find the first queued task with the given
id (`iter().position` + `remove(pos)` = first-match removal); if present,
bump the assigned core's count/load down and remove the task, otherwise
return the `"Task not found"` error with the state untouched. -/
def HmpScheduler.finish_task (s : HmpScheduler) (task_id : Nat) :
    Except String Unit × HmpScheduler :=
  match s.task_queue.find? (fun t => t.id == task_id) with
  | some task =>
    let s' :=
      match task.assigned_cpu with
      | some cpu_id =>
        if cpu_id < 4 then
          { s with a76_loads := s.a76_loads.update cpu_id bumpDown }
        else
          { s with a55_loads := s.a55_loads.update (cpu_id - 4) bumpDown }
      | none => s
    let queue' := s'.task_queue.eraseP (fun t => t.id == task_id)
    (Except.ok (), { s' with task_queue := queue' })
  | none => (Except.error "Task not found", s)

/-- One scheduler operation: a `submit_task` with an arbitrary task or a
`finish_task` with an arbitrary id. -/
inductive SchedStep : HmpScheduler → HmpScheduler → Prop where
  | submit (s : HmpScheduler) (t : Task) : SchedStep s (s.submit_task t).2
  | finish (s : HmpScheduler) (id : Nat) : SchedStep s (s.finish_task id).2

/-- States reachable from `HmpScheduler::new` by submit/finish sequences. -/
inductive SchedReachable : HmpScheduler → Prop where
  | init : SchedReachable HmpScheduler.new
  | step {s s' : HmpScheduler} :
      SchedReachable s → SchedStep s s' → SchedReachable s'

/-- The per-core load invariant: the stored load percentage is
`min(task_count * 25, 100)`. -/
def coreInv (c : CoreLoad) : Prop :=
  c.load_percent = min (c.task_count * 25) 100

/-- The load invariant over one cluster array. -/
def quadInv (q : Quad CoreLoad) : Prop :=
  coreInv q.q0 ∧ coreInv q.q1 ∧ coreInv q.q2 ∧ coreInv q.q3

/-- The load invariant over the whole scheduler. -/
def loadInv (s : HmpScheduler) : Prop :=
  quadInv s.a76_loads ∧ quadInv s.a55_loads

instance (c : CoreLoad) : Decidable (coreInv c) := by
  unfold coreInv; infer_instance

instance (q : Quad CoreLoad) : Decidable (quadInv q) := by
  unfold quadInv; infer_instance

instance (s : HmpScheduler) : Decidable (loadInv s) := by
  unfold loadInv; infer_instance

end HmpSched

namespace Gic

/-- Embeds `GIC_BASE` from `gic500.rs` (RK3588). -/
def GIC_BASE : Nat := 0xfe600000

/-- Embeds `GICD_BASE = GIC_BASE + 0x00000`. -/
def GICD_BASE : Nat := GIC_BASE + 0x00000

/-- Embeds `GICD_ISENABLER` register-bank offset. -/
def GICD_ISENABLER : Nat := 0x100

/-- Embeds `GICD_ICENABLER` register-bank offset. -/
def GICD_ICENABLER : Nat := 0x180

/-- Embeds `GICD_IPRIORITYR` register-bank offset. -/
def GICD_IPRIORITYR : Nat := 0x400

/-- Embeds `SPI_RANGE_START` / `SPI_RANGE_END`: shared-peripheral lines 32-1019. -/
def SPI_RANGE_START : Nat := 32

def SPI_RANGE_END : Nat := 1019

/-- A single memory-mapped register write, as (address, value).  The three
per-line operations of `Gic500` each perform at most one write; `none`
models the guarded out-of-range path that performs no write at all. -/
abbrev RegWrite := Nat × Nat

/-- Embeds `Gic500::enable_interrupt`: for an SPI id, writes `1 << (irq % 8)` to
the `GICD_ISENABLER` word at index `(irq - 32) / 32` (the source also
computes a `byte_offset = irq / 8` that it never uses); outside 32-1019 it
performs no write. -/
def enable_interrupt (irq : Nat) : Option RegWrite :=
  if SPI_RANGE_START ≤ irq ∧ irq ≤ SPI_RANGE_END then
    let bit_offset := irq % 8
    let reg_offset := (irq - 32) / 32
    some (GICD_BASE + GICD_ISENABLER + reg_offset * 4, 1 <<< bit_offset)
  else
    none

/-- Embeds `Gic500::disable_interrupt`: for an SPI id, writes
`1 << ((irq - 32) % 32)` to the `GICD_ICENABLER` word at index
`(irq - 32) / 32`; outside 32-1019 it performs no write. -/
def disable_interrupt (irq : Nat) : Option RegWrite :=
  if SPI_RANGE_START ≤ irq ∧ irq ≤ SPI_RANGE_END then
    let reg_offset := (irq - 32) / 32
    let bit_offset := (irq - 32) % 32
    some (GICD_BASE + GICD_ICENABLER + reg_offset * 4, 1 <<< bit_offset)
  else
    none

/-- Embeds `Gic500::set_priority`: for an SPI id, writes the priority byte at
`GICD_IPRIORITYR + irq`; outside 32-1019 it performs no write. -/
def set_priority (irq : Nat) (priority : Nat) : Option RegWrite :=
  if SPI_RANGE_START ≤ irq ∧ irq ≤ SPI_RANGE_END then
    some (GICD_BASE + GICD_IPRIORITYR + irq, priority)
  else
    none

end Gic

namespace Multicore

/-- Embeds `CpuState` from `multicore.rs`. -/
inductive CpuState where
  | Offline
  | Starting
  | Online
deriving DecidableEq, Repr

/-- Position of a state in the Offline → Starting → Online order. -/
def cpuStateRank : CpuState → Nat
  | CpuState.Offline => 0
  | CpuState.Starting => 1
  | CpuState.Online => 2

/-- The 8-entry `CPU_INFO` state table (each `CpuInfo.state` field). -/
def McState := Fin 8 → CpuState

instance : DecidableEq McState := by
  unfold McState; infer_instance

/-- All cores `Offline`, as `CpuInfo::new` initialises them. -/
def mcInit : McState := fun _ => CpuState.Offline

/-- Embeds `start_cpu(cpu_id)`: rejects ids ≥ 8, otherwise unconditionally sets
the core's state to `Starting` (and sends the wake SGI, which does not
touch the state table). -/
def start_cpu (s : McState) (cpu_id : Nat) : McState :=
  if h : cpu_id < 8 then
    Function.update s ⟨cpu_id, h⟩ CpuState.Starting
  else
    s

/-- Embeds `CpuInfo::set_state(Online)` on core `id`: the write the secondary-core
trampoline performs on itself, and that `multicore_init` performs for the
boot core. -/
def setOnline (s : McState) (id : Fin 8) : McState :=
  Function.update s id CpuState.Online

/-- One bring-up step: `start_cpu` with any id, a trampoline marking its
core `Online`, or the boot core marking itself `Online`. -/
inductive McStep : McState → McState → Prop where
  | start (s : McState) (cpu_id : Nat) : McStep s (start_cpu s cpu_id)
  | trampoline (s : McState) (id : Fin 8) : McStep s (setOnline s id)
  | bootOnline (s : McState) : McStep s (setOnline s 0)

/-- Core-state tables reachable from the all-Offline boot state. -/
inductive McReachable : McState → Prop where
  | init : McReachable mcInit
  | step {s s' : McState} : McReachable s → McStep s s' → McReachable s'

/-- Embeds `IpiHandler` function pointers are opaque to the state machine; the
embedding identifies a handler by an abstract token. -/
abbrev IpiHandler := Nat

/-- Embeds `register_ipi_handler(vector, handler)`: stores the handler in the
16-slot table only when `vector < 16`; larger vectors are ignored. -/
def register_ipi_handler (handlers : List (Option IpiHandler))
    (vector : Nat) (handler : IpiHandler) : List (Option IpiHandler) :=
  if vector < 16 then
    handlers.set vector (some handler)
  else
    handlers

/-- Embeds `send_ipi(vector, cpu_mask)`: forwards to `send_sgi` only when
`vector < 16`; the result records the SGI actually sent. -/
def send_ipi (vector : Nat) (cpu_mask : Nat) : Option (Nat × Nat) :=
  if vector < 16 then
    some (vector, cpu_mask)
  else
    none

/-- Embeds `handle_ipi(vector, cpu_id)`: indexes the fixed handler table with the
raw vector and no bounds check.  The outer `Option` is the table access
itself: `none` is the out-of-bounds panic; `some none` is the silently
ignored empty slot; `some (some (h, vector, cpu_id))` is handler `h`
invoked with `(vector, cpu_id)`. -/
def handle_ipi (handlers : List (Option IpiHandler))
    (vector : Nat) (cpu_id : Nat) : Option (Option (IpiHandler × Nat × Nat)) :=
  match handlers[vector]? with
  | none => none
  | some slot => some (slot.map (fun h => (h, vector, cpu_id)))

end Multicore

namespace NpuSupport

/-- Embeds `NpuTaskType` from `npu_support.rs`. -/
inductive NpuTaskType where
  | Preprocess
  | Inference
  | Postprocess
deriving DecidableEq, Repr

/-- Embeds `NpuSchedulePolicy` from `npu_support.rs`. -/
inductive NpuSchedulePolicy where
  | ASAP
  | MinPower
  | Balanced
deriving DecidableEq, Repr

/-- Embeds `NpuContext` from `npu_support.rs`. -/
structure NpuContext where
  context_id : Nat
  model_name : String
  current_task : NpuTaskType
  inference_state : Nat
  utilization : Nat
deriving DecidableEq, Repr

/-- Embeds `NpuScheduleDecision` from `npu_support.rs`: suggested CPU bitmask,
optional preferred CPU, frequency level 0-4, estimated milliseconds. -/
structure NpuScheduleDecision where
  suggested_cpus : Nat
  preferred_cpu : Option Nat
  freq_level : Nat
  estimated_time_ms : Nat
deriving DecidableEq, Repr

/-- Embeds `NpuScheduler` from `npu_support.rs`. -/
structure NpuScheduler where
  contexts : List NpuContext
  policy : NpuSchedulePolicy
deriving DecidableEq, Repr

/-- Embeds `NpuScheduler::new`. -/
def NpuScheduler.new (policy : NpuSchedulePolicy) : NpuScheduler :=
  { contexts := [], policy := policy }

/-- Embeds `NpuScheduler::register_context`: rejects once 8 contexts are
registered, otherwise pushes the context and returns its id. -/
def NpuScheduler.register_context (s : NpuScheduler) (context : NpuContext) :
    Except String Nat × NpuScheduler :=
  if s.contexts.length ≥ 8 then
    (Except.error "Too many NPU contexts", s)
  else
    (Except.ok context.context_id, { s with contexts := s.contexts ++ [context] })

/-- Embeds `NpuScheduler::schedule_asap`. -/
def NpuScheduler.schedule_asap (task_type : NpuTaskType) : NpuScheduleDecision :=
  match task_type with
  | NpuTaskType.Preprocess =>
    { suggested_cpus := 0x0F, preferred_cpu := some 0,
      freq_level := 4, estimated_time_ms := 10 }
  | NpuTaskType.Inference =>
    { suggested_cpus := 0xF0, preferred_cpu := none,
      freq_level := 0, estimated_time_ms := 50 }
  | NpuTaskType.Postprocess =>
    { suggested_cpus := 0x0F, preferred_cpu := some 1,
      freq_level := 4, estimated_time_ms := 10 }

/-- Embeds `NpuScheduler::schedule_min_power`. -/
def NpuScheduler.schedule_min_power (task_type : NpuTaskType) :
    NpuScheduleDecision :=
  match task_type with
  | NpuTaskType.Preprocess =>
    { suggested_cpus := 0xF0, preferred_cpu := some 4,
      freq_level := 1, estimated_time_ms := 20 }
  | NpuTaskType.Inference =>
    { suggested_cpus := 0xF0, preferred_cpu := none,
      freq_level := 0, estimated_time_ms := 50 }
  | NpuTaskType.Postprocess =>
    { suggested_cpus := 0xF0, preferred_cpu := some 5,
      freq_level := 1, estimated_time_ms := 20 }

/-- Embeds `NpuScheduler::schedule_balanced`. -/
def NpuScheduler.schedule_balanced (task_type : NpuTaskType) :
    NpuScheduleDecision :=
  match task_type with
  | NpuTaskType.Preprocess =>
    { suggested_cpus := 0x0F, preferred_cpu := some 0,
      freq_level := 3, estimated_time_ms := 15 }
  | NpuTaskType.Inference =>
    { suggested_cpus := 0xFF, preferred_cpu := none,
      freq_level := 0, estimated_time_ms := 50 }
  | NpuTaskType.Postprocess =>
    { suggested_cpus := 0x0F, preferred_cpu := some 1,
      freq_level := 3, estimated_time_ms := 15 }

/-- Embeds `NpuScheduler::get_schedule_decision`: dispatch on the scheduler's
policy (the per-policy functions read no other state). -/
def NpuScheduler.get_schedule_decision (s : NpuScheduler)
    (task_type : NpuTaskType) : NpuScheduleDecision :=
  match s.policy with
  | NpuSchedulePolicy.ASAP => NpuScheduler.schedule_asap task_type
  | NpuSchedulePolicy.MinPower => NpuScheduler.schedule_min_power task_type
  | NpuSchedulePolicy.Balanced => NpuScheduler.schedule_balanced task_type

end NpuSupport

namespace HmpSched

/-- View of the load record of CPU `cpu` (0-7): A76 slot for `cpu < 4`,
A55 slot `cpu - 4` otherwise. -/
def core_at (s : HmpScheduler) (cpu : Nat) : CoreLoad :=
  if cpu < 4 then s.a76_loads.get cpu else s.a55_loads.get (cpu - 4)

theorem findLeastQuad_spec (q : Quad CoreLoad) :
    findLeastQuad q < 4 ∧
    (∀ i, i < 4 →
      (q.get (findLeastQuad q)).load_percent ≤ (q.get i).load_percent) ∧
    ∀ j, j < findLeastQuad q →
      (q.get (findLeastQuad q)).load_percent < (q.get j).load_percent := by
  unfold findLeastQuad minStep
  dsimp only
  split_ifs with h1 h2 h3 h4 h5 h6 h7 <;>
    dsimp only at * <;>
    refine ⟨by omega, ?_, ?_⟩ <;>
    · intro i hi
      interval_cases i <;> simp only [Quad.get] at * <;> omega

theorem decide_cpu_lt8 (s : HmpScheduler) (t : Task) : s.decide_cpu t < 8 := by
  have h76 := (findLeastQuad_spec s.a76_loads).1
  have h55 := (findLeastQuad_spec s.a55_loads).1
  cases ht : t.hint <;>
    simp only [HmpScheduler.decide_cpu, ht, HmpScheduler.find_least_loaded_a76,
      HmpScheduler.find_least_loaded_a55] <;>
    first
    | omega
    | (split_ifs <;> omega)

theorem coreInv_bumpUp (c : CoreLoad) : coreInv (bumpUp c) := rfl

theorem coreInv_bumpDown (c : CoreLoad) : coreInv (bumpDown c) := rfl

theorem quadInv_update (q : Quad CoreLoad) (i : Nat) (f : CoreLoad → CoreLoad)
    (hf : ∀ c, coreInv (f c)) (h : quadInv q) : quadInv (q.update i f) := by
  obtain ⟨h0, h1, h2, h3⟩ := h
  unfold Quad.update
  split
  · exact ⟨hf _, h1, h2, h3⟩
  · exact ⟨h0, hf _, h2, h3⟩
  · exact ⟨h0, h1, hf _, h3⟩
  · exact ⟨h0, h1, h2, hf _⟩
  · exact ⟨h0, h1, h2, h3⟩

theorem quadInv_get (q : Quad CoreLoad) (h : quadInv q) (i : Nat)
    (hi : i < 4) : coreInv (q.get i) := by
  obtain ⟨h0, h1, h2, h3⟩ := h
  interval_cases i <;> assumption

theorem loadInv_submit (s : HmpScheduler) (t : Task) (h : loadInv s) :
    loadInv (s.submit_task t).2 := by
  unfold HmpScheduler.submit_task
  dsimp only
  split_ifs with hc
  · exact ⟨quadInv_update _ _ _ coreInv_bumpUp h.1, h.2⟩
  · exact ⟨h.1, quadInv_update _ _ _ coreInv_bumpUp h.2⟩

theorem loadInv_finish (s : HmpScheduler) (id : Nat) (h : loadInv s) :
    loadInv (s.finish_task id).2 := by
  unfold HmpScheduler.finish_task
  split
  · rename_i task heq
    dsimp only
    split
    · rename_i cpu_id heq2
      split_ifs with hc
      · exact ⟨quadInv_update _ _ _ coreInv_bumpDown h.1, h.2⟩
      · exact ⟨h.1, quadInv_update _ _ _ coreInv_bumpDown h.2⟩
    · exact h
  · exact h

theorem reachable_loadInv {s : HmpScheduler} (h : SchedReachable s) :
    loadInv s := by
  induction h with
  | init => decide
  | step _ hstep ih =>
    cases hstep with
    | submit t => exact loadInv_submit _ t ih
    | finish id => exact loadInv_finish _ id ih

/-- A sample high-performance task for concrete witnesses. -/
def sampleHP : Task :=
  { id := 1, priority := 50, hint := TaskHint.HighPerf,
    assigned_cpu := none, state := TaskState.Pending }

/-- A sample low-power task for concrete witnesses. -/
def sampleLP : Task :=
  { id := 2, priority := 50, hint := TaskHint.LowPower,
    assigned_cpu := none, state := TaskState.Pending }

/-- The state after submitting `sampleHP` to the fresh scheduler. -/
def sampleState1 : HmpScheduler := (HmpScheduler.new.submit_task sampleHP).2

/-- C1: in every state reachable from the initial scheduler by any sequence
of submit and finish operations, every core's load percentage equals
`min(task_count * 25, 100)`. -/
theorem c1_load_invariant (s : HmpScheduler) (h : SchedReachable s) :
    ∀ i, i < 4 →
      (s.a76_loads.get i).load_percent =
          min ((s.a76_loads.get i).task_count * 25) 100 ∧
      (s.a55_loads.get i).load_percent =
          min ((s.a55_loads.get i).task_count * 25) 100 := by
  have hinv := reachable_loadInv h
  intro i hi
  exact ⟨quadInv_get _ hinv.1 i hi, quadInv_get _ hinv.2 i hi⟩

theorem c1_load_invariant_witness :
    (sampleState1.a76_loads.get 0).load_percent =
        min ((sampleState1.a76_loads.get 0).task_count * 25) 100 ∧
    (sampleState1.a55_loads.get 0).load_percent =
        min ((sampleState1.a55_loads.get 0).task_count * 25) 100 :=
  c1_load_invariant sampleState1
    (SchedReachable.step SchedReachable.init
      (SchedStep.submit HmpScheduler.new sampleHP)) 0 (by decide)

/-- C2: for tasks hinted HighPerf or NpuPrePost, `decide_cpu` returns an id
in the performance cluster (0-3) holding the minimal A76 load, and every
strictly earlier index has a strictly larger load (first-strictly-smaller
scan ⇒ lowest index among ties). -/
theorem c2_decide_cpu_perf (s : HmpScheduler) (t : Task)
    (h : t.hint = TaskHint.HighPerf ∨ t.hint = TaskHint.NpuPrePost) :
    s.decide_cpu t < 4 ∧
    (∀ i, i < 4 →
      (s.a76_loads.get (s.decide_cpu t)).load_percent ≤
        (s.a76_loads.get i).load_percent) ∧
    ∀ j, j < s.decide_cpu t →
      (s.a76_loads.get (s.decide_cpu t)).load_percent <
        (s.a76_loads.get j).load_percent := by
  have hs := findLeastQuad_spec s.a76_loads
  rcases h with h | h <;>
    simp only [HmpScheduler.decide_cpu, h,
      HmpScheduler.find_least_loaded_a76] <;>
    exact hs

theorem c2_decide_cpu_perf_witness :
    HmpScheduler.new.decide_cpu sampleHP < 4 ∧
    (∀ i, i < 4 →
      (HmpScheduler.new.a76_loads.get
          (HmpScheduler.new.decide_cpu sampleHP)).load_percent ≤
        (HmpScheduler.new.a76_loads.get i).load_percent) ∧
    ∀ j, j < HmpScheduler.new.decide_cpu sampleHP →
      (HmpScheduler.new.a76_loads.get
          (HmpScheduler.new.decide_cpu sampleHP)).load_percent <
        (HmpScheduler.new.a76_loads.get j).load_percent :=
  c2_decide_cpu_perf HmpScheduler.new sampleHP (Or.inl rfl)

/-- C3: for a LowPower task, `decide_cpu` returns the least-loaded A55 core
as an id in 4-7 when the A55 average load is below the configured
threshold, and the least-loaded A76 core as an id in 0-3 otherwise. -/
theorem c3_decide_cpu_lowpower (s : HmpScheduler) (t : Task)
    (h : t.hint = TaskHint.LowPower) :
    (s.get_a55_avg_load < s.config.a55_load_threshold →
      4 ≤ s.decide_cpu t ∧ s.decide_cpu t < 8 ∧
      ∀ i, i < 4 →
        (s.a55_loads.get (s.decide_cpu t - 4)).load_percent ≤
          (s.a55_loads.get i).load_percent) ∧
    (s.config.a55_load_threshold ≤ s.get_a55_avg_load →
      s.decide_cpu t < 4 ∧
      ∀ i, i < 4 →
        (s.a76_loads.get (s.decide_cpu t)).load_percent ≤
          (s.a76_loads.get i).load_percent) := by
  have h55 := findLeastQuad_spec s.a55_loads
  have h76 := findLeastQuad_spec s.a76_loads
  simp only [HmpScheduler.decide_cpu, h, HmpScheduler.find_least_loaded_a55,
    HmpScheduler.find_least_loaded_a76]
  constructor
  · intro hlt
    rw [if_pos hlt]
    refine ⟨by omega, by omega, ?_⟩
    simpa using h55.2.1
  · intro hge
    rw [if_neg (by omega)]
    exact ⟨h76.1, h76.2.1⟩

theorem c3_decide_cpu_lowpower_witness :
    (HmpScheduler.new.get_a55_avg_load <
        HmpScheduler.new.config.a55_load_threshold →
      4 ≤ HmpScheduler.new.decide_cpu sampleLP ∧
      HmpScheduler.new.decide_cpu sampleLP < 8 ∧
      ∀ i, i < 4 →
        (HmpScheduler.new.a55_loads.get
            (HmpScheduler.new.decide_cpu sampleLP - 4)).load_percent ≤
          (HmpScheduler.new.a55_loads.get i).load_percent) ∧
    (HmpScheduler.new.config.a55_load_threshold ≤
        HmpScheduler.new.get_a55_avg_load →
      HmpScheduler.new.decide_cpu sampleLP < 4 ∧
      ∀ i, i < 4 →
        (HmpScheduler.new.a76_loads.get
            (HmpScheduler.new.decide_cpu sampleLP)).load_percent ≤
          (HmpScheduler.new.a76_loads.get i).load_percent) :=
  c3_decide_cpu_lowpower HmpScheduler.new sampleLP rfl

/-- C6: `finish_task` on an id absent from the queue returns the
`"Task not found"` error and returns the scheduler state unchanged (so the
queue length and every core's count and load are unchanged). -/
theorem c6_finish_unknown (s : HmpScheduler) (id : Nat)
    (h : ∀ u ∈ s.task_queue, u.id ≠ id) :
    (s.finish_task id).1 = Except.error "Task not found" ∧
    (s.finish_task id).2 = s := by
  have hfind : s.task_queue.find? (fun t => t.id == id) = none :=
    List.find?_eq_none.mpr (fun x hx => by simpa using h x hx)
  unfold HmpScheduler.finish_task
  rw [hfind]
  exact ⟨rfl, rfl⟩

theorem c6_finish_unknown_witness :
    (HmpScheduler.new.finish_task 7).1 = Except.error "Task not found" ∧
    (HmpScheduler.new.finish_task 7).2 = HmpScheduler.new :=
  c6_finish_unknown HmpScheduler.new 7
    (by intro u hu; simp [HmpScheduler.new] at hu)

theorem Quad.get_update_same {α : Type} (q : Quad α) (i : Nat) (f : α → α)
    (h : i < 4) : (q.update i f).get i = f (q.get i) := by
  interval_cases i <;> rfl

theorem bump_roundtrip (c : CoreLoad) (h : coreInv c) :
    bumpDown (bumpUp c) = c := by
  obtain ⟨cid, lp, tc⟩ := c
  simp only [bumpUp, bumpDown, coreInv] at *
  simp only [CoreLoad.mk.injEq]
  exact ⟨trivial, by omega, by omega⟩

theorem submit_task_eq (s : HmpScheduler) (t : Task) :
    s.submit_task t =
      (s.decide_cpu t,
       { a76_loads :=
           if s.decide_cpu t < 4 then
             s.a76_loads.update (s.decide_cpu t) bumpUp
           else s.a76_loads,
         a55_loads :=
           if s.decide_cpu t < 4 then s.a55_loads
           else s.a55_loads.update (s.decide_cpu t - 4) bumpUp,
         task_queue := s.task_queue ++
           [{ t with assigned_cpu := some (s.decide_cpu t),
                     state := TaskState.Running }],
         config := s.config }) := by
  unfold HmpScheduler.submit_task
  dsimp only
  split_ifs with h <;> rfl

/-- C5: on a reachable state, submitting a task whose id is not yet queued
and then finishing that id returns ok, restores the queue length, and
restores the assigned core's load percentage and task count. -/
theorem c5_submit_finish_roundtrip (s : HmpScheduler) (t : Task)
    (hr : SchedReachable s) (hfresh : ∀ u ∈ s.task_queue, u.id ≠ t.id) :
    ((s.submit_task t).2.finish_task t.id).1 = Except.ok () ∧
    ((s.submit_task t).2.finish_task t.id).2.task_queue.length =
      s.task_queue.length ∧
    (core_at ((s.submit_task t).2.finish_task t.id).2
        (s.submit_task t).1).load_percent =
      (core_at s (s.submit_task t).1).load_percent ∧
    (core_at ((s.submit_task t).2.finish_task t.id).2
        (s.submit_task t).1).task_count =
      (core_at s (s.submit_task t).1).task_count := by
  have hinv := reachable_loadInv hr
  have hcpu8 := decide_cpu_lt8 s t
  have hfind_none : s.task_queue.find? (fun x => x.id == t.id) = none :=
    List.find?_eq_none.mpr (fun x hx => by simpa using hfresh x hx)
  have hfind : (s.task_queue ++
        [{ t with assigned_cpu := some (s.decide_cpu t),
                  state := TaskState.Running }]).find?
        (fun x => x.id == t.id) =
      some { t with assigned_cpu := some (s.decide_cpu t),
                    state := TaskState.Running } := by
    rw [List.find?_append, hfind_none]
    simp
  have herase : (s.task_queue ++
        [{ t with assigned_cpu := some (s.decide_cpu t),
                  state := TaskState.Running }]).eraseP
        (fun x => x.id == t.id) = s.task_queue := by
    rw [List.eraseP_append_right _ (fun b hb => by simpa using hfresh b hb)]
    simp
  rw [submit_task_eq]
  dsimp only
  unfold HmpScheduler.finish_task
  dsimp only
  rw [hfind]
  dsimp only
  split_ifs with h4
  · refine ⟨rfl, ?_, ?_, ?_⟩
    · dsimp only
      rw [herase]
    · dsimp only [core_at]
      simp only [if_pos h4]
      rw [Quad.get_update_same _ _ _ h4, Quad.get_update_same _ _ _ h4,
        bump_roundtrip _ (quadInv_get _ hinv.1 _ h4)]
    · dsimp only [core_at]
      simp only [if_pos h4]
      rw [Quad.get_update_same _ _ _ h4, Quad.get_update_same _ _ _ h4,
        bump_roundtrip _ (quadInv_get _ hinv.1 _ h4)]
  · have h4' : s.decide_cpu t - 4 < 4 := by omega
    refine ⟨rfl, ?_, ?_, ?_⟩
    · dsimp only
      rw [herase]
    · dsimp only [core_at]
      simp only [if_neg h4]
      rw [Quad.get_update_same _ _ _ h4', Quad.get_update_same _ _ _ h4',
        bump_roundtrip _ (quadInv_get _ hinv.2 _ h4')]
    · dsimp only [core_at]
      simp only [if_neg h4]
      rw [Quad.get_update_same _ _ _ h4', Quad.get_update_same _ _ _ h4',
        bump_roundtrip _ (quadInv_get _ hinv.2 _ h4')]

theorem c5_submit_finish_roundtrip_witness :
    ((HmpScheduler.new.submit_task sampleHP).2.finish_task sampleHP.id).1 =
      Except.ok () ∧
    ((HmpScheduler.new.submit_task sampleHP).2.finish_task
        sampleHP.id).2.task_queue.length =
      HmpScheduler.new.task_queue.length ∧
    (core_at ((HmpScheduler.new.submit_task sampleHP).2.finish_task
          sampleHP.id).2
        (HmpScheduler.new.submit_task sampleHP).1).load_percent =
      (core_at HmpScheduler.new
        (HmpScheduler.new.submit_task sampleHP).1).load_percent ∧
    (core_at ((HmpScheduler.new.submit_task sampleHP).2.finish_task
          sampleHP.id).2
        (HmpScheduler.new.submit_task sampleHP).1).task_count =
      (core_at HmpScheduler.new
        (HmpScheduler.new.submit_task sampleHP).1).task_count :=
  c5_submit_finish_roundtrip HmpScheduler.new sampleHP SchedReachable.init
    (by intro u hu; simp [HmpScheduler.new] at hu)

end HmpSched

namespace Multicore

/-- The table after the boot core marks itself Online (`multicore_init`). -/
def mcState1 : McState := setOnline mcInit 0

/-- Embeds `mcState1` after a further `start_cpu(0)` call. -/
def mcState2 : McState := start_cpu mcState1 0

/-- C7 is false as stated: the bring-up step relation admits the reachable
sequence "boot core marks itself Online, then `start_cpu(0)`", whose second
step moves core 0 backwards from Online to Starting (`start_cpu` sets
Starting unconditionally). -/
theorem c7_counterexample :
    McReachable mcState1 ∧ McStep mcState1 mcState2 ∧
    cpuStateRank (mcState2 0) < cpuStateRank (mcState1 0) :=
  ⟨McReachable.step McReachable.init (McStep.bootOnline mcInit),
   McStep.start mcState1 0, by decide⟩

/-- C7 (amended): no bring-up step ever writes Offline, so a core that has
left Offline (in particular one that reached Online) never returns to
Offline; full Offline→Starting→Online monotonicity fails only because
`start_cpu` sets an already-Online core back to Starting. -/
theorem c7_no_return_to_offline {s s' : McState} (hstep : McStep s s')
    (c : Fin 8) (h : s c ≠ CpuState.Offline) : s' c ≠ CpuState.Offline := by
  cases hstep with
  | start cpu_id =>
    unfold start_cpu
    split_ifs with hid
    · rcases eq_or_ne c ⟨cpu_id, hid⟩ with rfl | hne
      · rw [Function.update_same]
        exact fun hcontra => CpuState.noConfusion hcontra
      · rw [Function.update_noteq hne]
        exact h
    · exact h
  | trampoline id =>
    unfold setOnline
    rcases eq_or_ne c id with rfl | hne
    · rw [Function.update_same]
      exact fun hcontra => CpuState.noConfusion hcontra
    · rw [Function.update_noteq hne]
      exact h
  | bootOnline =>
    unfold setOnline
    rcases eq_or_ne c 0 with rfl | hne
    · rw [Function.update_same]
      exact fun hcontra => CpuState.noConfusion hcontra
    · rw [Function.update_noteq hne]
      exact h

theorem c7_no_return_to_offline_witness :
    mcState2 0 ≠ CpuState.Offline :=
  c7_no_return_to_offline (McStep.start mcState1 0) 0 (by decide)

/-- A 16-slot IPI table with one registered handler, for witnesses. -/
def ipiTable0 : List (Option IpiHandler) :=
  (List.replicate 16 none).set 3 (some 7)

/-- C10: on the fixed 16-slot table, `handle_ipi` is total exactly for
vectors < 16 — empty slot silently ignored, registered handler invoked with
`(vector, cpu_id)` — and the unchecked table access fails (out of bounds)
for any vector ≥ 16, whereas `register_ipi_handler` and `send_ipi` both
guard `vector < 16` and ignore larger vectors. -/
theorem c10_handle_ipi_bounds (tbl : List (Option IpiHandler))
    (vector cpu_id handler cpu_mask : Nat) (hlen : tbl.length = 16) :
    (16 ≤ vector → handle_ipi tbl vector cpu_id = none) ∧
    (vector < 16 →
      handle_ipi tbl vector cpu_id =
        some ((tbl.getD vector none).map (fun h => (h, vector, cpu_id)))) ∧
    (16 ≤ vector →
      register_ipi_handler tbl vector handler = tbl ∧
      send_ipi vector cpu_mask = none) ∧
    (vector < 16 →
      register_ipi_handler tbl vector handler =
        tbl.set vector (some handler) ∧
      send_ipi vector cpu_mask = some (vector, cpu_mask)) := by
  refine ⟨?_, ?_, ?_, ?_⟩
  · intro hv
    unfold handle_ipi
    rw [List.getElem?_eq_none (by omega)]
  · intro hv
    unfold handle_ipi
    rw [List.getElem?_eq_getElem (by omega)]
    rw [List.getD_eq_getElem?_getD, List.getElem?_eq_getElem (by omega)]
    rfl
  · intro hv
    unfold register_ipi_handler send_ipi
    rw [if_neg (by omega), if_neg (by omega)]
    exact ⟨rfl, rfl⟩
  · intro hv
    unfold register_ipi_handler send_ipi
    rw [if_pos hv, if_pos hv]
    exact ⟨rfl, rfl⟩

theorem c10_handle_ipi_bounds_witness :
    handle_ipi ipiTable0 20 1 = none ∧
    register_ipi_handler ipiTable0 20 7 = ipiTable0 ∧
    send_ipi 20 3 = none ∧
    handle_ipi ipiTable0 3 1 = some (some (7, 3, 1)) := by
  have h := c10_handle_ipi_bounds ipiTable0 20 1 7 3 (by decide)
  have h' := c10_handle_ipi_bounds ipiTable0 3 1 7 3 (by decide)
  refine ⟨h.1 (by omega), (h.2.2.1 (by omega)).1, (h.2.2.1 (by omega)).2, ?_⟩
  rw [h'.2.1 (by omega)]
  decide

end Multicore

namespace Gic

/-- C4 fails on the code: for shared line 40 `enable_interrupt` writes bit
`40 % 8 = 0` of enable-set word 0 (the bit that belongs to line 32), while
`disable_interrupt` clears bit `(40 - 32) % 32 = 8` of the matching
enable-clear word; lines 32 and 40 are therefore not individually
addressable by enable.  Out-of-range ids (31, 1020) perform no write, as
the claim states. -/
theorem c4_enable_disable_bit_mismatch :
    enable_interrupt 40 = some (0xfe600100, 1) ∧
    disable_interrupt 40 = some (0xfe600180, 256) ∧
    enable_interrupt 32 = some (0xfe600100, 1) ∧
    disable_interrupt 32 = some (0xfe600180, 1) ∧
    enable_interrupt 31 = none ∧
    disable_interrupt 31 = none ∧
    enable_interrupt 1020 = none ∧
    disable_interrupt 1020 = none ∧
    set_priority 1020 5 = none := by
  refine ⟨?_, ?_, ?_, ?_, ?_, ?_, ?_, ?_, ?_⟩ <;> decide

end Gic

namespace NpuSupport

/-- C8: `register_context` succeeds (returning the context's id and
appending it) whenever fewer than 8 contexts are registered — hence each of
the first 8 calls from an empty advisor succeeds — and any call with 8 (or
more) contexts registered fails with the capacity error, leaving the
context list unchanged. -/
theorem c8_register_context_capacity (s : NpuScheduler) (c : NpuContext) :
    (s.contexts.length < 8 →
      s.register_context c =
        (Except.ok c.context_id, { s with contexts := s.contexts ++ [c] })) ∧
    (8 ≤ s.contexts.length →
      s.register_context c = (Except.error "Too many NPU contexts", s)) := by
  constructor
  · intro h
    unfold NpuScheduler.register_context
    rw [if_neg (by omega)]
  · intro h
    unfold NpuScheduler.register_context
    rw [if_pos (by omega)]

/-- A sample context for witnesses. -/
def ctx0 : NpuContext :=
  { context_id := 5, model_name := "yolov8",
    current_task := NpuTaskType.Preprocess,
    inference_state := 0, utilization := 0 }

/-- An advisor already holding 8 contexts, for witnesses. -/
def npuFull : NpuScheduler :=
  { contexts := List.replicate 8 ctx0, policy := NpuSchedulePolicy.ASAP }

theorem c8_register_context_capacity_witness :
    (NpuScheduler.new NpuSchedulePolicy.ASAP).register_context ctx0 =
      (Except.ok 5,
       { contexts := [ctx0], policy := NpuSchedulePolicy.ASAP }) ∧
    npuFull.register_context ctx0 =
      (Except.error "Too many NPU contexts", npuFull) :=
  ⟨(c8_register_context_capacity (NpuScheduler.new NpuSchedulePolicy.ASAP)
      ctx0).1 (by decide),
   (c8_register_context_capacity npuFull ctx0).2 (by decide)⟩

/-- C9: whatever contexts are registered, the ASAP decision for Preprocess
is the performance-cluster mask `0x0F` (bits 0-3 only) at frequency level
4, and the MinPower decision for Preprocess is the efficiency-cluster mask
`0xF0` (bits 4-7 only) at frequency level 1. -/
theorem c9_advise_preprocess (ctxs : List NpuContext) :
    (NpuScheduler.get_schedule_decision
        { contexts := ctxs, policy := NpuSchedulePolicy.ASAP }
        NpuTaskType.Preprocess).suggested_cpus = 0x0F ∧
    (NpuScheduler.get_schedule_decision
        { contexts := ctxs, policy := NpuSchedulePolicy.ASAP }
        NpuTaskType.Preprocess).freq_level = 4 ∧
    (∀ i, Nat.testBit 0x0F i = true → i < 4) ∧
    (NpuScheduler.get_schedule_decision
        { contexts := ctxs, policy := NpuSchedulePolicy.MinPower }
        NpuTaskType.Preprocess).suggested_cpus = 0xF0 ∧
    (NpuScheduler.get_schedule_decision
        { contexts := ctxs, policy := NpuSchedulePolicy.MinPower }
        NpuTaskType.Preprocess).freq_level = 1 ∧
    (∀ i, Nat.testBit 0xF0 i = true → 4 ≤ i ∧ i < 8) := by
  refine ⟨rfl, rfl, ?_, rfl, rfl, ?_⟩
  · intro i hi
    by_contra hlt
    push_neg at hlt
    have hf : Nat.testBit 0x0F i = false :=
      Nat.testBit_eq_false_of_lt
        (lt_of_lt_of_le (by norm_num) (Nat.pow_le_pow_right (by norm_num) hlt))
    rw [hf] at hi
    exact Bool.noConfusion hi
  · intro i hi
    constructor
    · by_contra h4
      push_neg at h4
      interval_cases i <;> revert hi <;> decide
    · by_contra h8
      push_neg at h8
      have hf : Nat.testBit 0xF0 i = false :=
        Nat.testBit_eq_false_of_lt
          (lt_of_lt_of_le (by norm_num) (Nat.pow_le_pow_right (by norm_num) h8))
      rw [hf] at hi
      exact Bool.noConfusion hi

theorem c9_advise_preprocess_witness :
    (NpuScheduler.get_schedule_decision
        { contexts := [], policy := NpuSchedulePolicy.ASAP }
        NpuTaskType.Preprocess).suggested_cpus = 0x0F ∧
    (NpuScheduler.get_schedule_decision
        { contexts := [], policy := NpuSchedulePolicy.ASAP }
        NpuTaskType.Preprocess).freq_level = 4 ∧
    (∀ i, Nat.testBit 0x0F i = true → i < 4) ∧
    (NpuScheduler.get_schedule_decision
        { contexts := [], policy := NpuSchedulePolicy.MinPower }
        NpuTaskType.Preprocess).suggested_cpus = 0xF0 ∧
    (NpuScheduler.get_schedule_decision
        { contexts := [], policy := NpuSchedulePolicy.MinPower }
        NpuTaskType.Preprocess).freq_level = 1 ∧
    (∀ i, Nat.testBit 0xF0 i = true → 4 ≤ i ∧ i < 8) :=
  c9_advise_preprocess []

end NpuSupport
